import Mathlib

/-!
Verification development for the PassProtect repository.

The definitions below are a shallow embedding, translated from the Python
sources:
  * `mcp_server.py` — the MCP Tool Gateway (`call_tool` and its branches);
  * `passProtect.py` — the CLI orchestrator's role-based tool filter;
  * `app.py`        — the web entry point's role-based tool filter;
  * `auth.py`       — `authenticate_user`;
  * `jwt_utils.py`  — `create_token` / `verify_token`.

The MySQL `passprotect` table is modelled as a list of rows, a row being an
association list from column names to values (mirroring the dictionary
cursors used throughout the source).  The external collaborators are
modelled as follows: the database connection either works or fails as a
whole (field `dbOk` of the execution context, standing for the
`mysql.connector` errors that `execute_query` re-raises); bcrypt's
`checkpw` is an abstract boolean function passed as a parameter; the JWT
HMAC signature is the standard perfect-MAC abstraction (a tag recording
the signing secret and the signed payload, with verification comparing
the tag against the verifier's secret).
-/

namespace PassProtect

/-- A MySQL cell value, as seen through a dictionary cursor. -/
inductive Value where
  | str (s : String) : Value
  | int (i : Int) : Value
deriving DecidableEq, Repr

/-- A table row: association list from column name to value
(first binding wins, as in a Python dict built left to right). -/
abbrev Row := List (String × Value)

/-- Column lookup in a row (`row[key]` on a dictionary cursor). -/
def getCol (r : Row) (k : String) : Option Value :=
  (r.find? (fun p => p.1 == k)).map (fun p => p.2)

/-- `key in data` on a Python dict. -/
def hasKey (r : Row) (k : String) : Bool :=
  (r.find? (fun p => p.1 == k)).isSome

/-- One `key = %s` SQL equality conjunct per condition entry:
a row matches when every condition column is present with the given value. -/
def rowMatches (r : Row) (cs : Row) : Bool :=
  cs.all (fun p => getCol r p.1 == some p.2)

/-- `SET key = %s` on one column: overwrite it where present
(rows of the real table always carry their columns; absent columns are
kept appended so the model stays total). -/
def setCol (r : Row) (k : String) (v : Value) : Row :=
  if hasKey r k then r.map (fun p => if p.1 == k then (p.1, v) else p)
  else r ++ [(k, v)]

/-- Apply an `UPDATE ... SET` data dict to one row. -/
def updateRow (r : Row) (data : Row) : Row :=
  data.foldl (fun acc p => setCol acc p.1 p.2) r

/-- ASCII lowercasing of one character (MySQL `LOWER` on the ASCII
column data this table holds). -/
def lowerChar (c : Char) : Char :=
  if 65 ≤ c.toNat && c.toNat ≤ 90 then Char.ofNat (c.toNat + 32) else c

/-- ASCII lowercasing of a string. -/
def lowerStr (s : String) : String := ⟨s.data.map lowerChar⟩

/-- ASCII uppercasing of one character (Python `str.upper` on ASCII). -/
def upperChar (c : Char) : Char :=
  if 97 ≤ c.toNat && c.toNat ≤ 122 then Char.ofNat (c.toNat - 32) else c

/-- ASCII uppercasing of a string. -/
def upperStr (s : String) : String := ⟨s.data.map upperChar⟩

/-- Python `str.strip` whitespace test. -/
def isSpaceChar (c : Char) : Bool :=
  c == ' ' || c == '\t' || c == '\n' || c == '\r'

/-- Python `str.strip`. -/
def trimChars (s : String) : String :=
  ⟨((s.data.dropWhile isSpaceChar).reverse.dropWhile isSpaceChar).reverse⟩

/-- `pre` is a prefix of `s` (Python `str.startswith`). -/
def strHasPrefix (pre s : String) : Bool :=
  pre.data.isPrefixOf s.data

/-- SQL `LIKE` on character lists, fuelled so that it is structurally
recursive: `%` matches any run, `_` exactly one character.  Every
recursive call shrinks `pat.length + s.length`, so the fuel below never
runs out. -/
def likeFuel : Nat → List Char → List Char → Bool
  | 0, _, _ => false
  | _ + 1, [], s => s.isEmpty
  | n + 1, '%' :: ps, [] => likeFuel n ps []
  | n + 1, '%' :: ps, c :: cs =>
      likeFuel n ps (c :: cs) || likeFuel n ('%' :: ps) cs
  | _ + 1, '_' :: _, [] => false
  | n + 1, '_' :: ps, _ :: cs => likeFuel n ps cs
  | _ + 1, _ :: _, [] => false
  | n + 1, p :: ps, c :: cs => (p == c) && likeFuel n ps cs

/-- SQL `LIKE`: does `s` match pattern `pat`? -/
def sqlLike (s pat : String) : Bool :=
  likeFuel (pat.length + s.length + 1) pat.data s.data

/-- The `passprotect` table. -/
structure DB where
  rows : List Row
deriving DecidableEq, Repr

/-- Execution context of a `mcp_server.py` process: the `USER_ID`
environment variable (`AUTHENTICATED_USER_ID`, `none` when unset or empty),
whether the storage collaborator is reachable, and the rows the engine
would return for a custom SELECT (opaque to the gateway). -/
structure Ctx where
  authUserId : Option Int
  dbOk : Bool
  customRows : List Row
deriving Repr

/-- The JSON-object argument of a tool call.  An empty dict / empty string
encodes an absent argument, exactly as `arguments.get(key, default)`
followed by Python falsiness tests treats it. -/
structure Args where
  data : Row
  conditions : Row
  limit : Nat
  company : String
  query : String
deriving Repr

/-- Result of one `call_tool` invocation: the returned `TextContent` texts,
the rows embedded (JSON-serialised) in the returned text for fetching
tools, the table state afterwards, and how many storage round-trips were
attempted. -/
structure CallResult where
  texts : List String
  rows : List Row
  db : DB
  storageCalls : Nat
deriving DecidableEq, Repr

/-- `call_tool`, branch `create_record` (mcp_server.py lines 202-219). -/
def createRecord (ctx : Ctx) (db : DB) (args : Args) : CallResult :=
  if args.data.isEmpty then ⟨["Error: No data provided"], [], db, 0⟩
  else
    let row := if hasKey args.data "archived" then args.data
               else args.data ++ [("archived", Value.int 0)]
    if ctx.dbOk then
      ⟨["Record created successfully."], [], ⟨db.rows ++ [row]⟩, 1⟩
    else ⟨["Error: Query execution failed"], [], db, 1⟩

/-- `call_tool`, branch `read_records` (mcp_server.py lines 221-239):
`SELECT * FROM passprotect [WHERE caller conditions] LIMIT limit`. -/
def readRecords (ctx : Ctx) (db : DB) (args : Args) : CallResult :=
  let sel := (db.rows.filter (fun r => rowMatches r args.conditions)).take args.limit
  if ctx.dbOk then
    ⟨["Found " ++ toString sel.length ++ " record(s)"], sel, db, 1⟩
  else ⟨["Error: Query execution failed"], [], db, 1⟩

/-- `call_tool`, branch `update_record` (mcp_server.py lines 241-260). -/
def updateRecord (ctx : Ctx) (db : DB) (args : Args) : CallResult :=
  if args.data.isEmpty then
    ⟨["Error: No data provided for update"], [], db, 0⟩
  else if args.conditions.isEmpty then
    ⟨["Error: No conditions provided. Update requires conditions to prevent accidental full table update."], [], db, 0⟩
  else
    let newRows := db.rows.map
      (fun r => if rowMatches r args.conditions then updateRow r args.data else r)
    if ctx.dbOk then ⟨["Update successful."], [], ⟨newRows⟩, 1⟩
    else ⟨["Error: Query execution failed"], [], db, 1⟩

/-- `call_tool`, branch `delete_record` (mcp_server.py lines 262-275). -/
def deleteRecord (ctx : Ctx) (db : DB) (args : Args) : CallResult :=
  if args.conditions.isEmpty then
    ⟨["Error: No conditions provided. Delete requires conditions to prevent accidental full table deletion."], [], db, 0⟩
  else
    let newRows := db.rows.filter (fun r => !(rowMatches r args.conditions))
    if ctx.dbOk then ⟨["Delete successful."], [], ⟨newRows⟩, 1⟩
    else ⟨["Error: Query execution failed"], [], db, 1⟩

/-- `call_tool`, branch `get_table_schema` (mcp_server.py lines 277-283):
`DESCRIBE passprotect`, one storage round-trip, no row data. -/
def getTableSchema (ctx : Ctx) (db : DB) : CallResult :=
  if ctx.dbOk then ⟨["Table schema"], [], db, 1⟩
  else ⟨["Error: Query execution failed"], [], db, 1⟩

/-- `call_tool`, branch `execute_custom_query` (mcp_server.py lines 285-298):
prefix check for SELECT, then an opaque engine round-trip. -/
def executeCustomQuery (ctx : Ctx) (db : DB) (args : Args) : CallResult :=
  if args.query = "" then ⟨["Error: No query provided"], [], db, 0⟩
  else if !(strHasPrefix "SELECT" (upperStr (trimChars args.query))) then
    ⟨["Error: Only SELECT queries are allowed"], [], db, 0⟩
  else if ctx.dbOk then ⟨["Query results"], ctx.customRows, db, 1⟩
  else ⟨["Error: Query execution failed"], [], db, 1⟩

/-- The WHERE predicate of the first (`read_password`) query:
`created_by_user_id = %s AND LOWER(companyName) = LOWER(%s) AND archived = 0`. -/
def exactMatch (uid : Int) (company : String) (r : Row) : Bool :=
  (getCol r "created_by_user_id" == some (Value.int uid)) &&
  (match getCol r "companyName" with
   | some (Value.str s) => lowerStr s == lowerStr company
   | _ => false) &&
  (getCol r "archived" == some (Value.int 0))

/-- The WHERE predicate of the fallback query:
`created_by_user_id = %s AND LOWER(companyName) LIKE LOWER('%company%') AND archived = 0`. -/
def partialMatch (uid : Int) (company : String) (r : Row) : Bool :=
  (getCol r "created_by_user_id" == some (Value.int uid)) &&
  (match getCol r "companyName" with
   | some (Value.str s) => sqlLike (lowerStr s) (lowerStr ("%" ++ company ++ "%"))
   | _ => false) &&
  (getCol r "archived" == some (Value.int 0))

/-- Columns in the `read_password` SELECT list. -/
def pwColumns : List String :=
  ["id", "companyName", "companyPassword", "companyUserName", "note"]

/-- Projection of a row onto the `read_password` SELECT list. -/
def projectPw (r : Row) : Row :=
  pwColumns.filterMap (fun k => (getCol r k).map (fun v => (k, v)))

/-- The projected result set of the exact-match phase of `read_password`
(Python local `results` after the first query). -/
def pwPhase1 (db : DB) (uid : Int) (company : String) : List Row :=
  (db.rows.filter (exactMatch uid company)).map projectPw

/-- The projected result set of the fallback phase of `read_password`
(Python local `results` after the partial-match query). -/
def pwPhase2 (db : DB) (uid : Int) (company : String) : List Row :=
  (db.rows.filter (partialMatch uid company)).map projectPw

/-- `call_tool`, branch `read_password` (mcp_server.py lines 300-335). -/
def readPassword (ctx : Ctx) (db : DB) (args : Args) : CallResult :=
  match ctx.authUserId with
  | none => ⟨["Error: User authentication context not found"], [], db, 0⟩
  | some uid =>
    if args.company = "" then ⟨["Error: Company name is required"], [], db, 0⟩
    else if !ctx.dbOk then ⟨["Error: Query execution failed"], [], db, 1⟩
    else if (pwPhase1 db uid args.company).isEmpty then
      if (pwPhase2 db uid args.company).isEmpty then
        ⟨["Not found: No password for company " ++ args.company], [], db, 2⟩
      else if (pwPhase2 db uid args.company).length = 1 then
        ⟨["Password found"], pwPhase2 db uid args.company, db, 2⟩
      else
        ⟨["Found " ++ toString (pwPhase2 db uid args.company).length
            ++ " matching passwords"], pwPhase2 db uid args.company, db, 2⟩
    else if (pwPhase1 db uid args.company).length = 1 then
      ⟨["Password found"], pwPhase1 db uid args.company, db, 1⟩
    else
      ⟨["Found " ++ toString (pwPhase1 db uid args.company).length
          ++ " matching passwords"], pwPhase1 db uid args.company, db, 1⟩

/-- The fixed tool catalog exposed by the gateway. -/
def toolCatalog : List String :=
  ["create_record", "read_records", "update_record", "delete_record",
   "get_table_schema", "execute_custom_query", "read_password"]

/-- `call_tool` (mcp_server.py lines 197-341): dispatch on the tool name,
with the unknown-tool fallback and the catch-all exception handler (the
latter shows up as the `Error:` texts of the failing branches). -/
def callTool (ctx : Ctx) (db : DB) (name : String) (args : Args) : CallResult :=
  if name = "create_record" then createRecord ctx db args
  else if name = "read_records" then readRecords ctx db args
  else if name = "update_record" then updateRecord ctx db args
  else if name = "delete_record" then deleteRecord ctx db args
  else if name = "get_table_schema" then getTableSchema ctx db
  else if name = "execute_custom_query" then executeCustomQuery ctx db args
  else if name = "read_password" then readPassword ctx db args
  else ⟨["Unknown tool: " ++ name], [], db, 0⟩

/-- `PassProtectAgent._get_allowed_tools` (passProtect.py lines 52-94). -/
def agent_get_allowed_tools (roles : List String) : List String :=
  if roles.contains "admin" then
    ["create_record", "read_records", "update_record", "delete_record",
     "get_table_schema", "execute_custom_query", "read_password"]
  else if roles.contains "user" || roles.contains "generalUser" then
    ["create_record", "read_records", "update_record",
     "get_table_schema", "read_password"]
  else if roles.contains "readonly" then
    ["read_records", "get_table_schema", "read_password"]
  else []

/-- `get_allowed_tools` (app.py lines 554-595). -/
def get_allowed_tools (roles : List String) : List String :=
  if roles.contains "admin" then
    ["create_record", "read_records", "update_record", "delete_record",
     "get_table_schema", "execute_custom_query", "read_password"]
  else if roles.contains "user" || roles.contains "generalUser" then
    ["create_record", "read_records", "update_record",
     "get_table_schema", "read_password", "execute_custom_query"]
  else if roles.contains "readonly" then
    ["read_records", "get_table_schema", "read_password"]
  else []

/-! ### Authentication (`auth.py`) and its surfacing (`app.py` login) -/

/-- A record of the `user` table, as selected by `authenticate_user`. -/
structure UserRec where
  id : Int
  userName : String
  email : String
  password : String
  enabled : Bool
  archived : Bool
deriving DecidableEq, Repr

/-- Outcome of `authenticate_user`: the returned user object, or the
message of the raised `AuthenticationError`. -/
inductive AuthResult where
  | ok (id : Int) (userName : String) (email : String)
  | err (msg : String)
deriving DecidableEq, Repr

/-- `authenticate_user` (auth.py lines 16-70).  `checkpw` abstracts the
bcrypt collaborator: any `PasswordVerificationError` (mismatch or bad
hash) is the `false` case. -/
def authenticate_user (checkpw : String → String → Bool)
    (users : List UserRec) (username password : String) : AuthResult :=
  if username = "" || password = "" then
    .err "Username and password are required"
  else
    match users.find? (fun u => u.userName == username) with
    | none => .err "Invalid username or password"
    | some u =>
      if u.archived then .err "Account is archived"
      else if !u.enabled then .err "Account is disabled"
      else if checkpw password u.password then .ok u.id u.userName u.email
      else .err "Invalid username or password"

/-- The error message the `app.py` login route (lines 97-98) renders to
the caller: `str(e)` of the `AuthenticationError`, verbatim. -/
def loginErrorShown : AuthResult → Option String
  | .ok _ _ _ => none
  | .err m => some m

/-! ### JWT issuance and verification (`jwt_utils.py`) -/

/-- The decoded token payload built by `create_token`.  Times are
seconds since the epoch. -/
structure Claims where
  sub : String
  username : String
  roles : List String
  iat : Nat
  exp : Nat
deriving DecidableEq, Repr

/-- A signed token: the payload plus its HMAC tag, the tag modelled as
the pair (signing secret, signed payload) — the perfect-MAC abstraction
of HS256. -/
structure Token where
  payload : Claims
  sigSecret : String
  sigPayload : Claims
deriving DecidableEq, Repr

/-- `JWT_EXPIRATION_HOURS` (jwt_utils.py line 18). -/
def JWT_EXPIRATION_HOURS : Nat := 8

/-- The error kinds `verify_token` and `create_token` distinguish:
`notConfigured` for a missing `JWT_SECRET`, `expired` for
`jwt.ExpiredSignatureError`, `invalid` for `jwt.InvalidTokenError`. -/
inductive TokenErrKind where
  | notConfigured
  | expired
  | invalid
deriving DecidableEq, Repr

/-- `create_token` (jwt_utils.py lines 26-62): `now` is the issuance
instant in epoch seconds, the expiry is 8 hours later, the subject is
the string form of the numeric user id. -/
def create_token (secret : String) (now : Nat) (user_id : Int)
    (username : String) (roles : List String) : Except TokenErrKind Token :=
  if secret = "" then .error .notConfigured
  else
    let payload : Claims :=
      ⟨toString user_id, username, roles, now, now + JWT_EXPIRATION_HOURS * 3600⟩
    .ok ⟨payload, secret, payload⟩

/-- `verify_token` (jwt_utils.py lines 65-108): signature check first
(PyJWT), then the expiry check — a token is expired exactly when the
verification instant has reached its `exp`. -/
def verify_token (secret : String) (now : Nat) (t : Token) :
    Except TokenErrKind Claims :=
  if secret = "" then .error .notConfigured
  else if t.sigSecret ≠ secret ∨ t.sigPayload ≠ t.payload then .error .invalid
  else if t.payload.exp ≤ now then .error .expired
  else .ok t.payload

/-! ### Helper lemmas about rows -/

theorem getCol_cons (p : String × Value) (r : Row) (k : String) :
    getCol (p :: r) k = if p.1 == k then some p.2 else getCol r k := by
  by_cases h : p.1 == k
  · simp [getCol, List.find?_cons_of_pos, h]
  · simp [getCol, List.find?_cons_of_neg, h]

theorem hasKey_cons (p : String × Value) (r : Row) (k : String) :
    hasKey (p :: r) k = (p.1 == k || hasKey r k) := by
  by_cases h : p.1 == k
  · simp [hasKey, List.find?_cons_of_pos, h]
  · simp [hasKey, List.find?_cons_of_neg, h]

theorem getCol_append_of_some (r l : Row) (k : String) (v : Value)
    (h : getCol r k = some v) : getCol (r ++ l) k = some v := by
  induction r with
  | nil => simp [getCol] at h
  | cons p r ih =>
    rw [getCol_cons] at h
    rw [List.cons_append, getCol_cons]
    by_cases h1 : p.1 == k
    · simpa [h1] using h
    · simp only [h1, if_neg, Bool.false_eq_true, not_false_eq_true] at h ⊢
      exact ih h

theorem getCol_append_single (r : Row) (k : String) (v : Value)
    (h : hasKey r k = false) : getCol (r ++ [(k, v)]) k = some v := by
  induction r with
  | nil => simp [getCol, List.find?]
  | cons p r ih =>
    rw [hasKey_cons, Bool.or_eq_false_iff] at h
    rw [List.cons_append, getCol_cons, if_neg (by simp [h.1]), ]
    exact ih h.2

theorem isEmpty_eq_false_of_ne_nil {α : Type} {l : List α} (h : l ≠ []) :
    l.isEmpty = false := by
  cases l with
  | nil => exact absurd rfl h
  | cons a l => rfl

theorem createRecord_texts_len (ctx : Ctx) (db : DB) (args : Args) :
    (createRecord ctx db args).texts.length = 1 := by
  unfold createRecord
  repeat' split
  all_goals rfl

theorem readRecords_texts_len (ctx : Ctx) (db : DB) (args : Args) :
    (readRecords ctx db args).texts.length = 1 := by
  unfold readRecords
  repeat' split
  all_goals rfl

theorem updateRecord_texts_len (ctx : Ctx) (db : DB) (args : Args) :
    (updateRecord ctx db args).texts.length = 1 := by
  unfold updateRecord
  repeat' split
  all_goals rfl

theorem deleteRecord_texts_len (ctx : Ctx) (db : DB) (args : Args) :
    (deleteRecord ctx db args).texts.length = 1 := by
  unfold deleteRecord
  repeat' split
  all_goals rfl

theorem getTableSchema_texts_len (ctx : Ctx) (db : DB) :
    (getTableSchema ctx db).texts.length = 1 := by
  unfold getTableSchema
  repeat' split
  all_goals rfl

theorem executeCustomQuery_texts_len (ctx : Ctx) (db : DB) (args : Args) :
    (executeCustomQuery ctx db args).texts.length = 1 := by
  unfold executeCustomQuery
  repeat' split
  all_goals rfl

theorem readPassword_texts_len (ctx : Ctx) (db : DB) (args : Args) :
    (readPassword ctx db args).texts.length = 1 := by
  unfold readPassword
  repeat' split
  all_goals rfl

/-- Example credential record owned by user 2, used by the
counterexamples below. -/
def exRowUser2 : Row :=
  [("id", Value.int 10), ("companyName", Value.str "Bank"),
   ("companyPassword", Value.str "bpw"), ("companyUserName", Value.str "b@x"),
   ("note", Value.str "savings"), ("created_by_user_id", Value.int 2),
   ("archived", Value.int 0)]

/-! ### Claim theorems -/

/-- **C1** (counterexample): with the caller authenticated as user 1
(`USER_ID=1` in the gateway context) and the table holding one record
owned by user 2, `read_records` with no caller-supplied conditions
returns user 2's record, and `delete_record` with condition `id = 10`
deletes it — no owned-by-caller filter is conjoined. -/
theorem C1_counterexample :
    (callTool ⟨some 1, true, []⟩ ⟨[exRowUser2]⟩ "read_records"
        ⟨[], [], 100, "", ""⟩).rows = [exRowUser2]
    ∧ getCol exRowUser2 "created_by_user_id" = some (Value.int 2)
    ∧ (2 : Int) ≠ 1
    ∧ (callTool ⟨some 1, true, []⟩ ⟨[exRowUser2]⟩ "delete_record"
        ⟨[], [("id", Value.int 10)], 100, "", ""⟩).db.rows = [] := by
  decide

/-- **C1** (amended): `read_records`, `update_record` and `delete_record`
apply exactly the caller-supplied conditions — the gateway conjoins no
owned-by-caller filter — so rows of other users are returned or mutated
whenever the caller-supplied conditions do not exclude them. -/
theorem C1_no_owner_filter (ctx : Ctx) (db : DB) (args : Args)
    (hok : ctx.dbOk = true) :
    (callTool ctx db "read_records" args).rows
      = (db.rows.filter (fun r => rowMatches r args.conditions)).take args.limit
    ∧ (args.conditions ≠ [] →
        (callTool ctx db "delete_record" args).db.rows
          = db.rows.filter (fun r => !(rowMatches r args.conditions)))
    ∧ (args.data ≠ [] → args.conditions ≠ [] →
        (callTool ctx db "update_record" args).db.rows
          = db.rows.map (fun r =>
              if rowMatches r args.conditions then updateRow r args.data else r)) := by
  have h1 : callTool ctx db "read_records" args = readRecords ctx db args := rfl
  have h2 : callTool ctx db "delete_record" args = deleteRecord ctx db args := rfl
  have h3 : callTool ctx db "update_record" args = updateRecord ctx db args := rfl
  refine ⟨?_, ?_, ?_⟩
  · rw [h1]
    simp only [readRecords, hok, if_true]
  · intro hc
    rw [h2]
    simp only [deleteRecord, isEmpty_eq_false_of_ne_nil hc, hok,
      Bool.false_eq_true, if_false, if_true]
  · intro hd hc
    rw [h3]
    simp only [updateRecord, isEmpty_eq_false_of_ne_nil hd,
      isEmpty_eq_false_of_ne_nil hc, hok, Bool.false_eq_true, if_false, if_true]

/-- Witness for the amended C1 on a two-row table with a condition that
does not mention the owner. -/
theorem C1_no_owner_filter_witness :
    (callTool ⟨some 1, true, []⟩ ⟨[exRowUser2]⟩ "read_records"
        ⟨[], [("companyName", Value.str "Bank")], 100, "", ""⟩).rows
      = (([exRowUser2] : List Row).filter
          (fun r => rowMatches r [("companyName", Value.str "Bank")])).take 100
    ∧ (([exRowUser2] : List Row).filter
          (fun r => rowMatches r [("companyName", Value.str "Bank")])).take 100
      = [exRowUser2] := by
  refine ⟨?_, by decide⟩
  exact (C1_no_owner_filter ⟨some 1, true, []⟩ ⟨[exRowUser2]⟩
    ⟨[], [("companyName", Value.str "Bank")], 100, "", ""⟩ rfl).1

/-- **C2** (counterexample): a `create_record` call made in a gateway
context authenticated as user 5, whose data supplies
`created_by_user_id = 999`, stores a record owned by 999 — the verified
identity does not overwrite the caller-supplied owner. -/
theorem C2_counterexample :
    (callTool ⟨some 5, true, []⟩ ⟨[]⟩ "create_record"
        ⟨[("companyName", Value.str "Google"),
          ("companyPassword", Value.str "secret123"),
          ("created_by_user_id", Value.int 999)], [], 100, "", ""⟩).db.rows
      = [[("companyName", Value.str "Google"),
          ("companyPassword", Value.str "secret123"),
          ("created_by_user_id", Value.int 999),
          ("archived", Value.int 0)]]
    ∧ getCol [("companyName", Value.str "Google"),
          ("companyPassword", Value.str "secret123"),
          ("created_by_user_id", Value.int 999),
          ("archived", Value.int 0)] "created_by_user_id"
      = some (Value.int 999)
    ∧ Value.int 999 ≠ Value.int 5 := by
  decide

/-- **C2** (amended): the stored record's owning-user field equals the
`created_by_user_id` value supplied in the caller's data, whatever it
is; `create_record` never consults the verified identity context (its
result is invariant under changing `authUserId`). -/
theorem C2_owner_taken_from_caller (ctx : Ctx) (db : DB) (data : Row)
    (v : Value) (hok : ctx.dbOk = true) (hd : data ≠ [])
    (hv : getCol data "created_by_user_id" = some v) :
    (∃ row, (callTool ctx db "create_record" ⟨data, [], 100, "", ""⟩).db.rows
        = db.rows ++ [row]
      ∧ getCol row "created_by_user_id" = some v)
    ∧ (∀ a1 a2 : Option Int,
        callTool ⟨a1, ctx.dbOk, ctx.customRows⟩ db "create_record"
            ⟨data, [], 100, "", ""⟩
          = callTool ⟨a2, ctx.dbOk, ctx.customRows⟩ db "create_record"
            ⟨data, [], 100, "", ""⟩) := by
  have h1 : ∀ c : Ctx, callTool c db "create_record" ⟨data, [], 100, "", ""⟩
      = createRecord c db ⟨data, [], 100, "", ""⟩ := fun _ => rfl
  constructor
  · rw [h1]
    unfold createRecord
    rw [if_neg (by simp [isEmpty_eq_false_of_ne_nil hd])]
    by_cases ha : hasKey data "archived" = true
    · refine ⟨data, ?_, hv⟩
      simp only [ha, if_true, hok]
    · refine ⟨data ++ [("archived", Value.int 0)], ?_,
        getCol_append_of_some data _ _ _ hv⟩
      simp [ha, hok]
  · intro a1 a2
    rw [h1, h1]
    unfold createRecord
    rfl

/-- Witness for the amended C2: caller authenticated as 5, supplied
owner 999. -/
theorem C2_owner_taken_from_caller_witness :
    ∃ row, (callTool ⟨some 5, true, []⟩ ⟨[]⟩ "create_record"
        ⟨[("companyName", Value.str "Google"),
          ("companyPassword", Value.str "secret123"),
          ("created_by_user_id", Value.int 999)], [], 100, "", ""⟩).db.rows
      = ([] : List Row) ++ [row]
    ∧ getCol row "created_by_user_id" = some (Value.int 999) := by
  exact (C2_owner_taken_from_caller ⟨some 5, true, []⟩ ⟨[]⟩
    [("companyName", Value.str "Google"),
     ("companyPassword", Value.str "secret123"),
     ("created_by_user_id", Value.int 999)]
    (Value.int 999) rfl (by decide) (by decide)).1

/-- **C3** (counterexample): the allow-list for role "readonly" excludes
`delete_record` in both orchestrator copies, yet a direct
`delete_record` invocation on the gateway (context authenticated as
user 1, table holding one record) performs a storage call and deletes
the record — `call_tool` re-checks no role permission. -/
theorem C3_counterexample :
    "delete_record" ∉ agent_get_allowed_tools ["readonly"]
    ∧ "delete_record" ∉ get_allowed_tools ["readonly"]
    ∧ (callTool ⟨some 1, true, []⟩ ⟨[exRowUser2]⟩ "delete_record"
        ⟨[], [("id", Value.int 10)], 100, "", ""⟩).storageCalls = 1
    ∧ (callTool ⟨some 1, true, []⟩ ⟨[exRowUser2]⟩ "delete_record"
        ⟨[], [("id", Value.int 10)], 100, "", ""⟩).db.rows = [] := by
  decide

/-- **C3** (amended): operations outside the caller's role-derived
allow-list are removed only from the tool list the orchestrators expose
to the planner; the gateway itself takes no role input and executes any
recognized tool, so a `delete_record` invocation with non-empty
conditions always reaches storage (one storage call), whatever the
caller's roles were. -/
theorem C3_role_check_only_at_exposure (ctx : Ctx) (db : DB) (args : Args)
    (hc : args.conditions ≠ []) :
    "delete_record" ∉ agent_get_allowed_tools ["readonly"]
    ∧ "delete_record" ∉ get_allowed_tools ["readonly"]
    ∧ (callTool ctx db "delete_record" args).storageCalls = 1
    ∧ (ctx.dbOk = true →
        (callTool ctx db "delete_record" args).db.rows
          = db.rows.filter (fun r => !(rowMatches r args.conditions))) := by
  have h2 : callTool ctx db "delete_record" args = deleteRecord ctx db args := rfl
  refine ⟨by decide, by decide, ?_, ?_⟩
  · rw [h2]
    unfold deleteRecord
    rw [if_neg (by simp [isEmpty_eq_false_of_ne_nil hc])]
    by_cases hok : ctx.dbOk = true
    · rw [if_pos hok]
    · rw [if_neg hok]
  · intro hok
    rw [h2]
    unfold deleteRecord
    rw [if_neg (by simp [isEmpty_eq_false_of_ne_nil hc]), if_pos hok]

/-- Witness for the amended C3 at the readonly scenario input. -/
theorem C3_role_check_only_at_exposure_witness :
    (callTool ⟨some 1, true, []⟩ ⟨[exRowUser2]⟩ "delete_record"
        ⟨[], [("id", Value.int 10)], 100, "", ""⟩).storageCalls = 1 := by
  exact (C3_role_check_only_at_exposure ⟨some 1, true, []⟩ ⟨[exRowUser2]⟩
    ⟨[], [("id", Value.int 10)], 100, "", ""⟩ (by decide)).2.2.1

/-- **C4** (code bug): for a role list containing "user" (and not "admin"),
the CLI orchestrator's allow-list is exactly
{create_record, read_records, update_record, get_table_schema,
read_password}, but the web entry point's copy additionally contains
execute_custom_query — contradicting its own docstring, which says it
matches the CLI copy and grants "create, read, update only". -/
theorem C4_web_user_gets_custom_query :
    "execute_custom_query" ∈ get_allowed_tools ["user"]
    ∧ "execute_custom_query" ∉ agent_get_allowed_tools ["user"]
    ∧ "execute_custom_query" ∈ get_allowed_tools ["generalUser"]
    ∧ "delete_record" ∉ get_allowed_tools ["user"]
    ∧ agent_get_allowed_tools ["user"]
      = ["create_record", "read_records", "update_record",
         "get_table_schema", "read_password"] := by
  decide

/-- **C5** (counterexample): a disabled account and an archived account
surface the caller-visible messages "Account is disabled" and "Account
is archived" — not the generic "invalid username or password" that the
bad-credential causes produce — so two attempts differing only in the
cause produce different caller-visible messages.  (The toy `checkpw`
compares plaintext with the stored value; only its boolean outcome
matters here.) -/
theorem C5_counterexample :
    loginErrorShown (authenticate_user (fun p h => p == h)
        [⟨1, "bob", "bob@x", "pw", false, false⟩] "bob" "pw")
      = some "Account is disabled"
    ∧ loginErrorShown (authenticate_user (fun p h => p == h)
        [⟨2, "carol", "c@x", "pw", true, true⟩] "carol" "pw")
      = some "Account is archived"
    ∧ loginErrorShown (authenticate_user (fun p h => p == h)
        ([] : List UserRec) "dave" "pw")
      = some "Invalid username or password"
    ∧ ("Account is disabled" : String) ≠ "Invalid username or password"
    ∧ ("Account is archived" : String) ≠ "Invalid username or password" := by
  decide

/-- **C5** (amended): the two bad-credential causes (user not found,
password mismatch) both surface the same generic
"Invalid username or password"; a disabled account surfaces
"Account is disabled" and an archived account "Account is archived",
and the web login passes each message to the caller verbatim. -/
theorem C5_auth_error_messages (checkpw : String → String → Bool)
    (users : List UserRec) (username password : String)
    (hu : username ≠ "") (hp : password ≠ "") :
    (users.find? (fun u => u.userName == username) = none →
      loginErrorShown (authenticate_user checkpw users username password)
        = some "Invalid username or password")
    ∧ (∀ u, users.find? (fun w => w.userName == username) = some u →
        (u.archived = true →
          loginErrorShown (authenticate_user checkpw users username password)
            = some "Account is archived")
        ∧ (u.archived = false → u.enabled = false →
          loginErrorShown (authenticate_user checkpw users username password)
            = some "Account is disabled")
        ∧ (u.archived = false → u.enabled = true →
          checkpw password u.password = false →
          loginErrorShown (authenticate_user checkpw users username password)
            = some "Invalid username or password")) := by
  have hne : ¬((decide (username = "") || decide (password = "")) = true) := by
    simp [hu, hp]
  constructor
  · intro hf
    unfold authenticate_user
    rw [if_neg hne, hf]
    rfl
  · intro u hf
    refine ⟨?_, ?_, ?_⟩
    · intro harch
      unfold authenticate_user
      rw [if_neg hne, hf]
      simp [harch, loginErrorShown]
    · intro harch hen
      unfold authenticate_user
      rw [if_neg hne, hf]
      simp [harch, hen, loginErrorShown]
    · intro harch hen hcp
      unfold authenticate_user
      rw [if_neg hne, hf]
      simp [harch, hen, hcp, loginErrorShown]

/-- Witness for the amended C5: a wrong password for an active account
surfaces the generic message. -/
theorem C5_auth_error_messages_witness :
    loginErrorShown (authenticate_user (fun p h => p == h)
        [⟨1, "erin", "e@x", "pw", true, false⟩] "erin" "wrong")
      = some "Invalid username or password" := by
  have h := C5_auth_error_messages (fun p h => p == h)
    [⟨1, "erin", "e@x", "pw", true, false⟩] "erin" "wrong"
    (by decide) (by decide)
  exact (h.2 ⟨1, "erin", "e@x", "pw", true, false⟩ (by decide)).2.2
    rfl rfl (by decide)

/-- **C6**: issuing a token for (u, n, r) at instant `t0` and verifying it
with the same secret before the expiry instant (8 hours after `t0`)
returns claims whose subject is the string form of u, with username n and
roles r; verifying at or after the expiry instant yields an expired-kind
error; verifying with a different secret yields an invalid-kind error. -/
theorem C6_token_roundtrip (secret : String) (t0 tv : Nat) (u : Int)
    (n : String) (r : List String) (hs : secret ≠ "") :
    ∀ tok, create_token secret t0 u n r = .ok tok →
      (tv < t0 + JWT_EXPIRATION_HOURS * 3600 →
        verify_token secret tv tok
          = .ok ⟨toString u, n, r, t0, t0 + JWT_EXPIRATION_HOURS * 3600⟩)
      ∧ (t0 + JWT_EXPIRATION_HOURS * 3600 ≤ tv →
        verify_token secret tv tok = .error .expired)
      ∧ (∀ s2, s2 ≠ "" → s2 ≠ secret →
        verify_token s2 tv tok = .error .invalid) := by
  intro tok htok
  rw [create_token, if_neg hs] at htok
  simp only [Except.ok.injEq] at htok
  subst htok
  refine ⟨?_, ?_, ?_⟩
  · intro hlt
    simp [verify_token, hs, Nat.not_le_of_lt hlt]
  · intro hle
    simp [verify_token, hs, hle]
  · intro s2 hs2 hne
    unfold verify_token
    rw [if_neg hs2]
    split
    · rfl
    · rename_i hcond
      exact absurd (Or.inl (fun h => hne (id h).symm)) hcond

/-- Witness for C6 at secret "k", issuance 0, user 1, roles ["admin"]. -/
theorem C6_token_roundtrip_witness :
    verify_token "k" 100 ⟨⟨"1", "alice", ["admin"], 0, 28800⟩, "k",
        ⟨"1", "alice", ["admin"], 0, 28800⟩⟩
      = .ok ⟨"1", "alice", ["admin"], 0, 28800⟩
    ∧ verify_token "k" 28800 ⟨⟨"1", "alice", ["admin"], 0, 28800⟩, "k",
        ⟨"1", "alice", ["admin"], 0, 28800⟩⟩
      = .error .expired
    ∧ verify_token "x" 100 ⟨⟨"1", "alice", ["admin"], 0, 28800⟩, "k",
        ⟨"1", "alice", ["admin"], 0, 28800⟩⟩
      = .error .invalid := by
  have h1 := C6_token_roundtrip "k" 0 100 1 "alice" ["admin"]
    (by decide) ⟨⟨"1", "alice", ["admin"], 0, 28800⟩, "k",
        ⟨"1", "alice", ["admin"], 0, 28800⟩⟩ rfl
  have h2 := C6_token_roundtrip "k" 0 28800 1 "alice" ["admin"]
    (by decide) ⟨⟨"1", "alice", ["admin"], 0, 28800⟩, "k",
        ⟨"1", "alice", ["admin"], 0, 28800⟩⟩ rfl
  exact ⟨h1.1 (by decide), h2.2.1 (by decide), h1.2.2 "x" (by decide) (by decide)⟩

/-- **C7**: an `update_record` or `delete_record` invocation whose
conditions are empty or absent is rejected with an "Error:" validation
text, makes zero storage calls, and leaves the table untouched.  The
gateway receives no role information, so this holds for every role. -/
theorem C7_empty_conditions_rejected (ctx : Ctx) (db : DB) (args : Args)
    (hc : args.conditions = []) :
    ((callTool ctx db "update_record" args).storageCalls = 0
      ∧ (callTool ctx db "update_record" args).db = db
      ∧ ∃ t, (callTool ctx db "update_record" args).texts = [t]
          ∧ strHasPrefix "Error:" t = true)
    ∧ ((callTool ctx db "delete_record" args).storageCalls = 0
      ∧ (callTool ctx db "delete_record" args).db = db
      ∧ ∃ t, (callTool ctx db "delete_record" args).texts = [t]
          ∧ strHasPrefix "Error:" t = true) := by
  have hu : callTool ctx db "update_record" args = updateRecord ctx db args := rfl
  have hd : callTool ctx db "delete_record" args = deleteRecord ctx db args := rfl
  constructor
  · rw [hu]
    unfold updateRecord
    by_cases he : args.data.isEmpty = true
    · rw [if_pos he]
      exact ⟨rfl, rfl, _, rfl, by decide⟩
    · rw [if_neg he, if_pos (by rw [hc]; rfl)]
      exact ⟨rfl, rfl, _, rfl, by decide⟩
  · rw [hd]
    unfold deleteRecord
    rw [if_pos (by rw [hc]; rfl)]
    exact ⟨rfl, rfl, _, rfl, by decide⟩

/-- Witness for C7: empty conditions on a one-row table. -/
theorem C7_empty_conditions_rejected_witness :
    (callTool ⟨some 1, true, []⟩ ⟨[[("id", Value.int 1)]]⟩ "delete_record"
        ⟨[], [], 100, "", ""⟩).storageCalls = 0
    ∧ (callTool ⟨some 1, true, []⟩ ⟨[[("id", Value.int 1)]]⟩ "delete_record"
        ⟨[], [], 100, "", ""⟩).db = ⟨[[("id", Value.int 1)]]⟩ := by
  have h := C7_empty_conditions_rejected ⟨some 1, true, []⟩ ⟨[[("id", Value.int 1)]]⟩
    ⟨[], [], 100, "", ""⟩ rfl
  exact ⟨h.2.1, h.2.2.1⟩

/-- **C8**: with a verified user id in context and a non-empty company
argument, `read_password` first filters on the exact case-insensitive
name match; only when that phase selects no row does it run the
substring (SQL LIKE `%company%`) fallback, with a second storage
round-trip; the rows of both phases are restricted to records owned by
the caller with `archived = 0`; whatever matches (one row or several)
is returned. -/
theorem C8_read_password_two_phase (ctx : Ctx) (db : DB) (args : Args)
    (uid : Int) (hA : ctx.authUserId = some uid) (hok : ctx.dbOk = true)
    (hc : args.company ≠ "") :
    (db.rows.filter (exactMatch uid args.company) ≠ [] →
      (callTool ctx db "read_password" args).rows
        = (db.rows.filter (exactMatch uid args.company)).map projectPw
      ∧ (callTool ctx db "read_password" args).storageCalls = 1)
    ∧ (db.rows.filter (exactMatch uid args.company) = [] →
      (callTool ctx db "read_password" args).rows
        = (db.rows.filter (partialMatch uid args.company)).map projectPw
      ∧ (callTool ctx db "read_password" args).storageCalls = 2)
    ∧ (∀ r : Row,
        exactMatch uid args.company r = true
          ∨ partialMatch uid args.company r = true →
        getCol r "created_by_user_id" = some (Value.int uid)
        ∧ getCol r "archived" = some (Value.int 0)) := by
  obtain ⟨a, d, cr⟩ := ctx
  simp only at hA hok
  subst hA
  subst hok
  have h1 : ∀ x : Args, callTool ⟨some uid, true, cr⟩ db "read_password" x
      = readPassword ⟨some uid, true, cr⟩ db x := fun _ => rfl
  have h2 : readPassword ⟨some uid, true, cr⟩ db args
      = if args.company = "" then
          ⟨["Error: Company name is required"], [], db, 0⟩
        else
          let phase1 := (db.rows.filter (exactMatch uid args.company)).map projectPw
          if phase1.isEmpty then
            let phase2 :=
              (db.rows.filter (partialMatch uid args.company)).map projectPw
            if phase2.isEmpty then
              ⟨["Not found: No password for company " ++ args.company], [], db, 2⟩
            else if phase2.length = 1 then ⟨["Password found"], phase2, db, 2⟩
            else ⟨["Found " ++ toString phase2.length ++ " matching passwords"],
                  phase2, db, 2⟩
          else if phase1.length = 1 then ⟨["Password found"], phase1, db, 1⟩
          else ⟨["Found " ++ toString phase1.length ++ " matching passwords"],
                phase1, db, 1⟩ := rfl
  refine ⟨?_, ?_, ?_⟩
  · intro hne
    have hmape : ((db.rows.filter (exactMatch uid args.company)).map
        projectPw).isEmpty = false :=
      isEmpty_eq_false_of_ne_nil (by simpa using hne)
    rw [h1, h2, if_neg hc]
    simp only [hmape, Bool.false_eq_true, if_false]
    split
    · exact ⟨rfl, rfl⟩
    · exact ⟨rfl, rfl⟩
  · intro hnil
    rw [h1, h2, if_neg hc]
    simp only [hnil, List.map_nil, List.isEmpty_nil, if_true]
    split
    · rename_i hp2
      simp only [List.isEmpty_iff] at hp2
      simp [hp2]
    · split
      · exact ⟨rfl, rfl⟩
      · exact ⟨rfl, rfl⟩
  · intro r hr
    have hcomp : (getCol r "created_by_user_id" == some (Value.int uid)) = true
        ∧ (getCol r "archived" == some (Value.int 0)) = true := by
      rcases hr with h | h
      · unfold exactMatch at h
        simp only [Bool.and_eq_true] at h
        exact ⟨h.1.1, h.2⟩
      · unfold partialMatch at h
        simp only [Bool.and_eq_true] at h
        exact ⟨h.1.1, h.2⟩
    exact ⟨by simpa using hcomp.1, by simpa using hcomp.2⟩

/-- Witness for C8: the caller (user 7) owns a record named "Gmail";
`read_password` with company "gmail" finds it in the exact phase and
returns exactly that one record (projected on the SELECT list). -/
theorem C8_read_password_two_phase_witness :
    (callTool ⟨some 7, true, []⟩
        ⟨[[("id", Value.int 1), ("companyName", Value.str "Gmail"),
           ("companyPassword", Value.str "gpw"),
           ("companyUserName", Value.str "a@g"), ("note", Value.str "n"),
           ("created_by_user_id", Value.int 7), ("archived", Value.int 0)]]⟩
        "read_password" ⟨[], [], 100, "gmail", ""⟩).rows
      = (([[("id", Value.int 1), ("companyName", Value.str "Gmail"),
           ("companyPassword", Value.str "gpw"),
           ("companyUserName", Value.str "a@g"), ("note", Value.str "n"),
           ("created_by_user_id", Value.int 7), ("archived", Value.int 0)]]
          : List Row).filter (exactMatch 7 "gmail")).map projectPw
    ∧ (([[("id", Value.int 1), ("companyName", Value.str "Gmail"),
           ("companyPassword", Value.str "gpw"),
           ("companyUserName", Value.str "a@g"), ("note", Value.str "n"),
           ("created_by_user_id", Value.int 7), ("archived", Value.int 0)]]
          : List Row).filter (exactMatch 7 "gmail")).map projectPw
      = [[("id", Value.int 1), ("companyName", Value.str "Gmail"),
          ("companyPassword", Value.str "gpw"),
          ("companyUserName", Value.str "a@g"), ("note", Value.str "n")]] := by
  refine ⟨?_, by decide⟩
  exact ((C8_read_password_two_phase ⟨some 7, true, []⟩
    ⟨[[("id", Value.int 1), ("companyName", Value.str "Gmail"),
       ("companyPassword", Value.str "gpw"),
       ("companyUserName", Value.str "a@g"), ("note", Value.str "n"),
       ("created_by_user_id", Value.int 7), ("archived", Value.int 0)]]⟩
    ⟨[], [], 100, "gmail", ""⟩ 7 rfl rfl (by decide)).1 (by decide)).1

/-- **C9**: `create_record` with data that omits the `archived` key
inserts the record with `archived = 0`; such a record, when owned by
`uid` and named with the looked-up company, satisfies the exact-match
predicate of `read_password`, so it is immediately visible to
lookup-by-name.  A caller-supplied `archived` value is stored as given. -/
theorem C9_archived_default (ctx : Ctx) (db : DB) (data : Row)
    (hok : ctx.dbOk = true) (hd : data ≠ []) :
    (hasKey data "archived" = false →
      (callTool ctx db "create_record" ⟨data, [], 100, "", ""⟩).db.rows
        = db.rows ++ [data ++ [("archived", Value.int 0)]]
      ∧ getCol (data ++ [("archived", Value.int 0)]) "archived"
        = some (Value.int 0)
      ∧ (∀ uid : Int, ∀ s : String,
          getCol data "created_by_user_id" = some (Value.int uid) →
          getCol data "companyName" = some (Value.str s) →
          exactMatch uid s (data ++ [("archived", Value.int 0)]) = true))
    ∧ (hasKey data "archived" = true →
      (callTool ctx db "create_record" ⟨data, [], 100, "", ""⟩).db.rows
        = db.rows ++ [data]) := by
  have h1 : callTool ctx db "create_record" ⟨data, [], 100, "", ""⟩
      = createRecord ctx db ⟨data, [], 100, "", ""⟩ := rfl
  constructor
  · intro ha
    refine ⟨?_, getCol_append_single data _ _ ha, ?_⟩
    · rw [h1]
      unfold createRecord
      rw [if_neg (by simp [isEmpty_eq_false_of_ne_nil hd])]
      simp [ha, hok]
    · intro uid s howner hname
      unfold exactMatch
      rw [getCol_append_of_some data _ _ _ howner,
        getCol_append_of_some data _ _ _ hname,
        getCol_append_single data _ _ ha]
      simp
  · intro ha
    rw [h1]
    unfold createRecord
    rw [if_neg (by simp [isEmpty_eq_false_of_ne_nil hd])]
    simp [ha, hok]

/-- Witness for C9: data without `archived`, owned by user 3 and named
"Zoom"; the stored row defaults `archived` to 0 and is exact-matched by
`read_password` for company "zoom". -/
theorem C9_archived_default_witness :
    (callTool ⟨some 3, true, []⟩ ⟨[]⟩ "create_record"
        ⟨[("companyName", Value.str "Zoom"),
          ("companyPassword", Value.str "zp"),
          ("created_by_user_id", Value.int 3)], [], 100, "", ""⟩).db.rows
      = [[("companyName", Value.str "Zoom"),
          ("companyPassword", Value.str "zp"),
          ("created_by_user_id", Value.int 3),
          ("archived", Value.int 0)]]
    ∧ exactMatch 3 "Zoom"
        ([("companyName", Value.str "Zoom"),
          ("companyPassword", Value.str "zp"),
          ("created_by_user_id", Value.int 3)]
          ++ [("archived", Value.int 0)]) = true := by
  have h := (C9_archived_default ⟨some 3, true, []⟩ ⟨[]⟩
    [("companyName", Value.str "Zoom"), ("companyPassword", Value.str "zp"),
     ("created_by_user_id", Value.int 3)] rfl (by decide)).1 (by decide)
  exact ⟨h.1, h.2.2 3 "Zoom" (by decide) (by decide)⟩

/-- **C10**: the gateway dispatcher always returns exactly one text: an
unrecognized tool name yields the "Unknown tool" text rather than an
error propagating to the transport, and when the storage collaborator is
failing every recognized tool returns a text beginning with "Error:"
(the catch-all handler), never an exception. -/
theorem C10_call_tool_total (ctx : Ctx) (db : DB) (name : String)
    (args : Args) :
    (∃ t, (callTool ctx db name args).texts = [t])
    ∧ (name ∉ toolCatalog →
        (callTool ctx db name args).texts = ["Unknown tool: " ++ name])
    ∧ (ctx.dbOk = false → name ∈ toolCatalog →
        ∃ t, (callTool ctx db name args).texts = [t]
          ∧ strHasPrefix "Error:" t = true) := by
  refine ⟨?_, ?_, ?_⟩
  · refine List.length_eq_one.mp ?_
    by_cases hmem : name ∈ toolCatalog
    · simp only [toolCatalog, List.mem_cons, List.not_mem_nil, or_false] at hmem
      rcases hmem with rfl | rfl | rfl | rfl | rfl | rfl | rfl
      · exact createRecord_texts_len ctx db args
      · exact readRecords_texts_len ctx db args
      · exact updateRecord_texts_len ctx db args
      · exact deleteRecord_texts_len ctx db args
      · exact getTableSchema_texts_len ctx db
      · exact executeCustomQuery_texts_len ctx db args
      · exact readPassword_texts_len ctx db args
    · simp only [toolCatalog, List.mem_cons, List.not_mem_nil, or_false,
        not_or] at hmem
      obtain ⟨h1, h2, h3, h4, h5, h6, h7⟩ := hmem
      unfold callTool
      rw [if_neg h1, if_neg h2, if_neg h3, if_neg h4, if_neg h5, if_neg h6,
        if_neg h7]
      rfl
  · intro h
    simp only [toolCatalog, List.mem_cons, List.not_mem_nil, or_false,
      not_or] at h
    obtain ⟨h1, h2, h3, h4, h5, h6, h7⟩ := h
    unfold callTool
    rw [if_neg h1, if_neg h2, if_neg h3, if_neg h4, if_neg h5, if_neg h6,
      if_neg h7]
  · intro hdb hmem
    simp only [toolCatalog, List.mem_cons, List.not_mem_nil, or_false] at hmem
    rcases hmem with rfl | rfl | rfl | rfl | rfl | rfl | rfl
    · show ∃ t, (createRecord ctx db args).texts = [t] ∧ _
      unfold createRecord
      split
      · exact ⟨_, rfl, by decide⟩
      · rw [if_neg (by simp [hdb])]
        exact ⟨_, rfl, by decide⟩
    · show ∃ t, (readRecords ctx db args).texts = [t] ∧ _
      unfold readRecords
      rw [if_neg (by simp [hdb])]
      exact ⟨_, rfl, by decide⟩
    · show ∃ t, (updateRecord ctx db args).texts = [t] ∧ _
      unfold updateRecord
      split
      · exact ⟨_, rfl, by decide⟩
      · split
        · exact ⟨_, rfl, by decide⟩
        · rw [if_neg (by simp [hdb])]
          exact ⟨_, rfl, by decide⟩
    · show ∃ t, (deleteRecord ctx db args).texts = [t] ∧ _
      unfold deleteRecord
      split
      · exact ⟨_, rfl, by decide⟩
      · rw [if_neg (by simp [hdb])]
        exact ⟨_, rfl, by decide⟩
    · show ∃ t, (getTableSchema ctx db).texts = [t] ∧ _
      unfold getTableSchema
      rw [if_neg (by simp [hdb])]
      exact ⟨_, rfl, by decide⟩
    · show ∃ t, (executeCustomQuery ctx db args).texts = [t] ∧ _
      unfold executeCustomQuery
      split
      · exact ⟨_, rfl, by decide⟩
      · split
        · exact ⟨_, rfl, by decide⟩
        · rw [if_neg (by simp [hdb])]
          exact ⟨_, rfl, by decide⟩
    · show ∃ t, (readPassword ctx db args).texts = [t] ∧ _
      unfold readPassword
      split
      · exact ⟨_, rfl, by decide⟩
      · split
        · exact ⟨_, rfl, by decide⟩
        · rw [if_pos (by simp [hdb])]
          exact ⟨_, rfl, by decide⟩

/-- Witness for C10: an unknown tool name, with storage failing, still
returns the "Unknown tool" text. -/
theorem C10_call_tool_total_witness :
    (callTool ⟨some 1, false, []⟩ ⟨[]⟩ "drop_table"
        ⟨[], [], 100, "", ""⟩).texts = ["Unknown tool: drop_table"] := by
  exact (C10_call_tool_total ⟨some 1, false, []⟩ ⟨[]⟩ "drop_table"
    ⟨[], [], 100, "", ""⟩).2.1 (by decide)

end PassProtect
